import Mathlib

/-!
Shallow embedding of the email-memory service: a dual store keeping one
relational row and one vector entry per email, with embedding-based search.

Modelling conventions:
- Machine floats (embedding components, similarity scores) are modelled as
  rationals; no claim here depends on float rounding.
- External collaborators (the embedding provider, the nearest-neighbour
  query of the vector index, and date parsing) are passed in as function
  parameters; the stores themselves are modelled as explicit lists.
- JavaScript optional string properties are modelled as plain strings with
  the empty string standing for an absent value wherever the source only
  ever reads them through truthiness or an or-empty default; where the
  source distinguishes undefined from a present value (partial updates,
  SQL NULL binding) an Option is used instead.
- A thrown exception is modelled as an Except error; a fault of an external
  store is injected through an explicit Boolean parameter.
-/

namespace MemV2

/-- Error taxonomy of the service, mirroring the thrown Error messages. -/
inductive MemErr where
  | dimensionMismatch (expected observed : Nat)
  | notFound (id : String)
  | noFieldsToUpdate
  | storageFailure
  deriving DecidableEq, Repr

/-- Rendering of the dimension-mismatch error text from vectorize.ts. -/
def memErrMessage : MemErr → String
  | MemErr.dimensionMismatch expected observed =>
      "Embedding dimension mismatch: expected " ++ toString expected ++
      ", got " ++ toString observed ++
      ". This usually indicates a Vectorize index configuration issue."
  | MemErr.notFound id => "Email memory with ID " ++ id ++ " not found"
  | MemErr.noFieldsToUpdate => "No fields to update"
  | MemErr.storageFailure => "Storage failure"

/-- Constant EXPECTED_GEMINI_DIMENSIONS from vectorize.ts. -/
def EXPECTED_GEMINI_DIMENSIONS : Nat := 768

/-- Constant MINIMUM_SIMILARITY_SCORE from vectorize.ts. -/
def MINIMUM_SIMILARITY_SCORE : ℚ := 0

/-- The EmailMetadata interface: optional strings modelled with empty string
for absence (the source reads them only through truthiness or or-empty). -/
structure EmailMetadata where
  content : String
  senderEmail : String
  senderName : String := ""
  subject : String := ""
  dateSent : String
  threadId : String := ""
  conversationId : String := ""
  attachments : String := ""
  emailType : String := ""
  deriving DecidableEq, Repr

/-- The metadata payload written by every Vectorize upsert in vectorize.ts. -/
structure VecMetadata where
  content : String
  senderEmail : String
  senderName : String
  subject : String
  dateSent : String
  threadId : String
  conversationId : String
  attachments : String
  emailType : String
  embeddingModel : String
  embeddingDimensions : String
  deriving DecidableEq, Repr

/-- An absent metadata object, as produced when getByIds finds nothing. -/
def emptyVecMetadata : VecMetadata :=
  { content := "", senderEmail := "", senderName := "", subject := ""
    dateSent := "", threadId := "", conversationId := "", attachments := ""
    emailType := "", embeddingModel := "", embeddingDimensions := "" }

/-- One entry of the Vectorize index; ns is the namespace tag (the owner). -/
structure VecEntry where
  id : String
  values : List ℚ
  ns : String
  metadata : VecMetadata
  deriving DecidableEq, Repr

/-- Vectorize upsert semantics: overwrite the entry with the same id if one
exists, otherwise append. -/
def vecUpsert (e : VecEntry) (idx : List VecEntry) : List VecEntry :=
  if idx.any (fun x => x.id == e.id) then
    idx.map (fun x => if x.id == e.id then e else x)
  else
    idx ++ [e]

/-- Vectorize getByIds for a single id; ids are unique across the index, and
the lookup carries no namespace qualifier, exactly as in the source. -/
def vecGetById (memoryId : String) (idx : List VecEntry) : Option VecEntry :=
  idx.find? (fun x => x.id == memoryId)

/-- Function validateEmbeddingDimensions from vectorize.ts. -/
def validateEmbeddingDimensions (embedding : List ℚ) : Except MemErr Unit :=
  if embedding.length = EXPECTED_GEMINI_DIMENSIONS then Except.ok ()
  else Except.error (MemErr.dimensionMismatch EXPECTED_GEMINI_DIMENSIONS embedding.length)

/-- Function generateEmbeddings from vectorize.ts; the Gemini provider call
is the parameter embed. -/
def generateEmbeddings (embed : String → List ℚ) (text : String) : Except MemErr (List ℚ) :=
  match validateEmbeddingDimensions (embed text) with
  | Except.error e => Except.error e
  | Except.ok _ => Except.ok (embed text)

/-- The six labelled fragments assembled by createEmailContent, in source
order, before the truthiness filter. -/
def emailContentParts (m : EmailMetadata) : List String :=
  [m.content,
   if m.subject != "" then "Subject: " ++ m.subject else "",
   "From: " ++ (if m.senderName != "" then m.senderName else m.senderEmail),
   "Sender: " ++ m.senderEmail,
   "Date: " ++ m.dateSent,
   if m.attachments != "" then "Attachments: " ++ m.attachments else ""]

/-- Function createEmailContent from vectorize.ts: filter out falsy parts
and join with the fixed separator. -/
def createEmailContent (m : EmailMetadata) : String :=
  String.intercalate " | " ((emailContentParts m).filter (fun p => p != ""))

/-- The metadata object built inside the upsert calls of storeEmailMemory
and updateEmailMemoryVector (both build the identical shape). -/
def buildVecMetadata (m : EmailMetadata) (values : List ℚ) : VecMetadata :=
  { content := m.content
    senderEmail := m.senderEmail
    senderName := m.senderName
    subject := m.subject
    dateSent := m.dateSent
    threadId := m.threadId
    conversationId := m.conversationId
    attachments := m.attachments
    emailType := if m.emailType = "" then "standard" else m.emailType
    embeddingModel := "gemini-text-embedding-004"
    embeddingDimensions := toString values.length }

/-- Function storeEmailMemory from vectorize.ts: derive the content blob,
embed it (with dimension validation), then upsert into the index. -/
def storeEmailMemory (embed : String → List ℚ) (metadata : EmailMetadata)
    (userId memoryId : String) (idx : List VecEntry) : Except MemErr (List VecEntry) :=
  match generateEmbeddings embed (createEmailContent metadata) with
  | Except.error e => Except.error e
  | Except.ok values =>
      Except.ok (vecUpsert
        { id := memoryId, values := values, ns := userId
          metadata := buildVecMetadata metadata values } idx)

/-- A Partial of EmailMetadata: none is an absent property. -/
structure PartialEmailMetadata where
  content : Option String := none
  senderEmail : Option String := none
  senderName : Option String := none
  subject : Option String := none
  dateSent : Option String := none
  threadId : Option String := none
  conversationId : Option String := none
  attachments : Option String := none
  emailType : Option String := none
  deriving DecidableEq, Repr

/-- The object spread merging partial fields over existing metadata in
updateEmailMemoryVector: a supplied property overwrites, the rest is kept. -/
def mergeMetadata (existing : VecMetadata) (p : PartialEmailMetadata) : EmailMetadata :=
  { content := p.content.getD existing.content
    senderEmail := p.senderEmail.getD existing.senderEmail
    senderName := p.senderName.getD existing.senderName
    subject := p.subject.getD existing.subject
    dateSent := p.dateSent.getD existing.dateSent
    threadId := p.threadId.getD existing.threadId
    conversationId := p.conversationId.getD existing.conversationId
    attachments := p.attachments.getD existing.attachments
    emailType := p.emailType.getD existing.emailType }

/-- The existing-metadata read of updateEmailMemoryVector: getByIds by id
only, with no namespace qualifier, empty when absent. -/
def vecExistingMetadata (memoryId : String) (idx : List VecEntry) : VecMetadata :=
  match vecGetById memoryId idx with
  | some e => e.metadata
  | none => emptyVecMetadata

/-- Function updateEmailMemoryVector from vectorize.ts: fetch existing
metadata by id, merge the partial fields over it, re-derive the content
blob, re-embed, and upsert under the callers namespace. -/
def updateEmailMemoryVector (embed : String → List ℚ) (memoryId : String)
    (p : PartialEmailMetadata) (userId : String) (idx : List VecEntry) :
    Except MemErr (List VecEntry) :=
  let fullMetadata := mergeMetadata (vecExistingMetadata memoryId idx) p
  match generateEmbeddings embed (createEmailContent fullMetadata) with
  | Except.error e => Except.error e
  | Except.ok newValues =>
      Except.ok (vecUpsert
        { id := memoryId, values := newValues, ns := userId
          metadata := buildVecMetadata fullMetadata newValues } idx)

/-- Modelled from the spec: the namespace-scoped variant of the metadata
lookup that the spec prescribes for update (fetch by id, scoped to owner);
used only to compare against the behaviour of the source. -/
def vecExistingMetadataScoped (memoryId userId : String) (idx : List VecEntry) : VecMetadata :=
  match idx.find? (fun x => x.id == memoryId && x.ns == userId) with
  | some e => e.metadata
  | none => emptyVecMetadata

/-- Modelled from the spec: updateEmailMemoryVector as the spec words it,
with the existing-metadata fetch scoped to the owner namespace. -/
def updateEmailMemoryVectorScoped (embed : String → List ℚ) (memoryId : String)
    (p : PartialEmailMetadata) (userId : String) (idx : List VecEntry) :
    Except MemErr (List VecEntry) :=
  let fullMetadata := mergeMetadata (vecExistingMetadataScoped memoryId userId idx) p
  match generateEmbeddings embed (createEmailContent fullMetadata) with
  | Except.error e => Except.error e
  | Except.ok newValues =>
      Except.ok (vecUpsert
        { id := memoryId, values := newValues, ns := userId
          metadata := buildVecMetadata fullMetadata newValues } idx)

/-- Function deleteVectorById from vectorize.ts; the injected fault models
a failing deleteByIds call of the external index. -/
def deleteVectorById (memoryId : String) (fault : Bool) (idx : List VecEntry) :
    Except MemErr (List VecEntry) :=
  if fault then Except.error MemErr.storageFailure
  else Except.ok (idx.filter (fun e => e.id != memoryId))

/-- Optional search filters of searchEmailMemories. -/
structure EmailSearchFilters where
  senderEmail : Option String := none
  dateRange : Option (String × String) := none
  threadId : Option String := none
  hasAttachments : Option Bool := none
  deriving DecidableEq, Repr

/-- One match returned by the nearest-neighbour query of the index. -/
structure VecMatch where
  id : String
  score : ℚ
  metadata : VecMetadata
  deriving DecidableEq, Repr

/-- One element of the result of searchEmailMemories. -/
structure EmailSearchResult where
  content : String
  score : ℚ
  id : String
  metadata : VecMetadata
  deriving DecidableEq, Repr

/-- JavaScript comparison of two Date objects built from strings: the parse
oracle yields none for an invalid date (NaN), and every comparison against
NaN is false. -/
def jsDateLt (parse : String → Option ℚ) (a b : String) : Bool :=
  match parse a, parse b with
  | some x, some y => decide (x < y)
  | _, _ => false

/-- The body of the date-range branch of the filter in searchEmailMemories:
it fires only when a range is supplied and the match has a truthy dateSent. -/
def dateRangeRejects (parse : String → Option ℚ) :
    Option (String × String) → String → Bool
  | none, _ => false
  | some dr, dateSent =>
      dateSent != "" && (jsDateLt parse dateSent dr.1 || jsDateLt parse dr.2 dateSent)

/-- The conjunctive filter predicate applied per memory in
searchEmailMemories, with the same early-return structure as the source. -/
def passesFilters (parse : String → Option ℚ) (f : EmailSearchFilters)
    (meta : VecMetadata) : Bool :=
  if f.senderEmail.getD "" != "" && meta.senderEmail != f.senderEmail.getD "" then false
  else if f.threadId.getD "" != "" && meta.threadId != f.threadId.getD "" then false
  else if dateRangeRejects parse f.dateRange meta.dateSent then false
  else if f.hasAttachments.getD false && meta.attachments == "" then false
  else true

/-- The map from a raw vector match to a search result, with the or-default
on missing content used by the source. -/
def toEmailSearchResult (m : VecMatch) : EmailSearchResult :=
  { content := if m.metadata.content = "" then "Missing content" else m.metadata.content
    score := m.score
    id := m.id
    metadata := m.metadata }

/-- Descending-score comparison used to model the final sort of
searchEmailMemories. -/
def scoreGE (a b : EmailSearchResult) : Prop := b.score ≤ a.score

instance : DecidableRel scoreGE :=
  fun a b => inferInstanceAs (Decidable (b.score ≤ a.score))

instance : IsTotal EmailSearchResult scoreGE :=
  ⟨fun a b => le_total b.score a.score⟩

instance : IsTrans EmailSearchResult scoreGE :=
  ⟨fun _ _ _ hab hbc => le_trans hbc hab⟩

/-- The sort by relevance score, highest first; JavaScript sort is stable,
and only the multiset and the ordering of scores are relied upon here. -/
def sortByScoreDesc (l : List EmailSearchResult) : List EmailSearchResult :=
  List.insertionSort scoreGE l

/-- Function searchEmailMemories from vectorize.ts; queryIndex is the
nearest-neighbour query of the external index (vector, namespace, topK). -/
def searchEmailMemories (embed : String → List ℚ)
    (queryIndex : List ℚ → String → Nat → List VecMatch)
    (parse : String → Option ℚ)
    (query userId : String) (filters : Option EmailSearchFilters) :
    Except MemErr (List EmailSearchResult) :=
  match generateEmbeddings embed query with
  | Except.error e => Except.error e
  | Except.ok queryVector =>
      let queryMatches := queryIndex queryVector userId 20
      if queryMatches.isEmpty then Except.ok []
      else
        let memories := (queryMatches.filter
          (fun m => decide (MINIMUM_SIMILARITY_SCORE ≤ m.score))).map toEmailSearchResult
        let memories := match filters with
          | some f => memories.filter (fun mem => passesFilters parse f mem.metadata)
          | none => memories
        Except.ok (sortByScoreDesc memories)

/-- Function findSimilarEmails from vectorize.ts: fetch the stored vector by
id, query topK plus one neighbours in the callers namespace, drop the item
itself, truncate to topK. -/
def findSimilarEmails (queryIndex : List ℚ → String → Nat → List VecMatch)
    (emailId userId : String) (topK : Nat) (idx : List VecEntry) :
    Except MemErr (List VecMatch) :=
  match vecGetById emailId idx with
  | none => Except.error (MemErr.notFound emailId)
  | some entry =>
      let results := queryIndex entry.values userId (topK + 1)
      Except.ok (((results.filter (fun m => m.id != emailId)).take topK).map
        (fun m => { id := m.id, score := m.score, metadata := m.metadata }))

/-- One row of the email_memories table (schema of migrate.sql); columns
bound to SQL NULL are Option values. The created_at column is filled by a
database default and never read back by the modelled operations. -/
structure EmailMemoryRow where
  id : String
  userId : String
  senderEmail : String
  senderName : String
  subject : String
  body : String
  attachments : String
  dateSent : String
  threadId : Option String
  conversationId : Option String
  relatedEmailIds : Option String
  deriving DecidableEq, Repr

/-- One row of the email_relationships table. -/
structure EmailRelationshipRow where
  id : String
  email_id : String
  related_email_id : String
  relationship_type : String
  deriving DecidableEq, Repr

/-- The or-null binding used for optional columns in storeEmailMemoryInD1:
undefined and the empty string both become SQL NULL. -/
def strOrNull (s : Option String) : Option String :=
  match s with
  | some v => if v = "" then none else some v
  | none => none

/-- The argument record of storeEmailMemoryInD1 (EmailMemory without id and
created_at). -/
structure EmailMemoryInput where
  userId : String
  senderEmail : String
  senderName : String
  subject : String
  body : String
  attachments : String
  dateSent : String
  threadId : Option String := none
  conversationId : Option String := none
  relatedEmailIds : Option String := none
  deriving DecidableEq, Repr

/-- Function storeEmailMemoryInD1 from db.ts: a single INSERT; a duplicate
primary key makes the statement fail. -/
def storeEmailMemoryInD1 (email : EmailMemoryInput) (memoryId : String)
    (rows : List EmailMemoryRow) : Except MemErr (List EmailMemoryRow) :=
  if rows.any (fun r => r.id == memoryId) then Except.error MemErr.storageFailure
  else Except.ok (rows ++
    [{ id := memoryId
       userId := email.userId
       senderEmail := email.senderEmail
       senderName := email.senderName
       subject := email.subject
       body := email.body
       attachments := email.attachments
       dateSent := email.dateSent
       threadId := strOrNull email.threadId
       conversationId := strOrNull email.conversationId
       relatedEmailIds := strOrNull email.relatedEmailIds }])

/-- The entries of the updates object passed to updateEmailMemoryInD1, in
property order; a none value is an undefined property value. -/
abbrev UpdateEntries := List (String × Option String)

/-- The SET-clause builder of updateEmailMemoryInD1: keep every entry whose
key is neither id nor userId and whose value is defined. -/
def buildSetPairs (updates : UpdateEntries) : List (String × String) :=
  updates.filterMap (fun kv =>
    if kv.1 ≠ "id" ∧ kv.1 ≠ "userId" then kv.2.map (fun v => (kv.1, v)) else none)

/-- ASCII case folding of an identifier, character by character, modelling
the case-insensitive resolution of SQL column names. -/
def lowerAscii (s : String) : String := String.mk (s.data.map Char.toLower)

/-- Application of one SET assignment to a row. The source splices the raw
key text into the SQL statement, and SQLite resolves column identifiers
case-insensitively, so an assignment reaches a column whenever the key
matches its name up to ASCII case — even when the case-sensitive JavaScript
exclusion check let the key through. Optional columns are set to the given
(non-null) value. A key matching no column at all makes the SQL statement
itself fail, and key text containing SQL syntax is not modelled, so the
theorems that rely on an update succeeding restrict keys to column names. -/
def applyColumn (r : EmailMemoryRow) (kv : String × String) : EmailMemoryRow :=
  if lowerAscii kv.1 = "id" then { r with id := kv.2 }
  else if lowerAscii kv.1 = "userid" then { r with userId := kv.2 }
  else if lowerAscii kv.1 = "senderemail" then { r with senderEmail := kv.2 }
  else if lowerAscii kv.1 = "sendername" then { r with senderName := kv.2 }
  else if lowerAscii kv.1 = "subject" then { r with subject := kv.2 }
  else if lowerAscii kv.1 = "body" then { r with body := kv.2 }
  else if lowerAscii kv.1 = "attachments" then { r with attachments := kv.2 }
  else if lowerAscii kv.1 = "datesent" then { r with dateSent := kv.2 }
  else if lowerAscii kv.1 = "threadid" then { r with threadId := some kv.2 }
  else if lowerAscii kv.1 = "conversationid" then { r with conversationId := some kv.2 }
  else if lowerAscii kv.1 = "relatedemailids" then { r with relatedEmailIds := some kv.2 }
  else r

/-- The non-key columns of email_memories that a partial update may set. -/
def emailColumns : List String :=
  ["senderEmail", "senderName", "subject", "body", "attachments", "dateSent",
   "threadId", "conversationId", "relatedEmailIds"]

/-- Function updateEmailMemoryInD1 from db.ts: build the dynamic SET clause,
fail when it is empty, run the UPDATE scoped to id and owner, and fail with
the not-found error when zero rows were affected. -/
def updateEmailMemoryInD1 (memoryId userId : String) (updates : UpdateEntries)
    (rows : List EmailMemoryRow) : Except MemErr Unit × List EmailMemoryRow :=
  let pairs := buildSetPairs updates
  if pairs.isEmpty then (Except.error MemErr.noFieldsToUpdate, rows)
  else
    let rows' := rows.map (fun r =>
      if r.id == memoryId && r.userId == userId then pairs.foldl applyColumn r else r)
    let changes := (rows.filter (fun r => r.id == memoryId && r.userId == userId)).length
    if changes = 0 then (Except.error (MemErr.notFound memoryId), rows')
    else (Except.ok (), rows')

/-- Function deleteEmailMemoryFromD1 from db.ts: delete every relationship
referencing the id in either column, then the row scoped to id and owner.
The injected fault models a failing D1 statement. -/
def deleteEmailMemoryFromD1 (memoryId userId : String) (fault : Bool)
    (rels : List EmailRelationshipRow) (rows : List EmailMemoryRow) :
    Except MemErr (List EmailRelationshipRow × List EmailMemoryRow) :=
  if fault then Except.error MemErr.storageFailure
  else Except.ok
    (rels.filter (fun r => !(r.email_id == memoryId || r.related_email_id == memoryId)),
     rows.filter (fun r => !(r.id == memoryId && r.userId == userId)))

/-- Reading a JSON body property, as the PUT route hands the raw body to
updateEmailMemoryVector as a Partial of EmailMetadata. -/
def lookupEntry (updates : UpdateEntries) (key : String) : Option String :=
  match updates.find? (fun kv => kv.1 == key) with
  | some kv => kv.2
  | none => none

/-- The Partial of EmailMetadata that the PUT route effectively passes to
updateEmailMemoryVector: property reads on the raw JSON body. -/
def partialOfBody (updates : UpdateEntries) : PartialEmailMetadata :=
  { content := lookupEntry updates "content"
    senderEmail := lookupEntry updates "senderEmail"
    senderName := lookupEntry updates "senderName"
    subject := lookupEntry updates "subject"
    dateSent := lookupEntry updates "dateSent"
    threadId := lookupEntry updates "threadId"
    conversationId := lookupEntry updates "conversationId"
    attachments := lookupEntry updates "attachments"
    emailType := lookupEntry updates "emailType" }

/-- The HTTP response of a route: success flag and status code. -/
structure RouteResponse where
  success : Bool
  status : Nat
  deriving DecidableEq, Repr

/-- The PUT /emails/:emailId route: update D1 first (404 when the error
message says not found, 500 otherwise); only then update the vector, whose
failure is caught, logged and swallowed into a success response. -/
def updateEmailRoute (embed : String → List ℚ) (emailId userId : String)
    (body : UpdateEntries) (rows : List EmailMemoryRow) (idx : List VecEntry) :
    RouteResponse × List EmailMemoryRow × List VecEntry :=
  match updateEmailMemoryInD1 emailId userId body rows with
  | (Except.error e, rows') =>
      (⟨false, match e with | MemErr.notFound _ => 404 | _ => 500⟩, rows', idx)
  | (Except.ok _, rows') =>
      match updateEmailMemoryVector embed emailId (partialOfBody body) userId idx with
      | Except.error _ => (⟨true, 200⟩, rows', idx)
      | Except.ok idx' => (⟨true, 200⟩, rows', idx')

/-- The DELETE /emails/:emailId route: delete from D1 first; a D1 failure is
reported as a 500 and the vector delete is never attempted; a vector-delete
failure is caught, logged and swallowed into a success response. -/
def deleteEmailRoute (emailId userId : String) (d1Fault vecFault : Bool)
    (rels : List EmailRelationshipRow) (rows : List EmailMemoryRow)
    (idx : List VecEntry) :
    RouteResponse × List EmailRelationshipRow × List EmailMemoryRow × List VecEntry :=
  match deleteEmailMemoryFromD1 emailId userId d1Fault rels rows with
  | Except.error _ => (⟨false, 500⟩, rels, rows, idx)
  | Except.ok (rels', rows') =>
      match deleteVectorById emailId vecFault idx with
      | Except.error _ => (⟨true, 200⟩, rels', rows', idx)
      | Except.ok idx' => (⟨true, 200⟩, rels', rows', idx')

/-- The parameters of the ingestEmail tool. -/
structure IngestEmailParams where
  senderEmail : String
  senderName : Option String := none
  subject : Option String := none
  body : String
  attachments : Option String := none
  dateSent : String
  threadId : Option String := none
  conversationId : Option String := none
  deriving DecidableEq, Repr

/-- The EmailMetadata the ingestEmail handler passes to storeEmailMemory. -/
def metadataOfIngest (p : IngestEmailParams) : EmailMetadata :=
  { content := p.body
    senderEmail := p.senderEmail
    senderName := p.senderName.getD ""
    subject := p.subject.getD ""
    dateSent := p.dateSent
    threadId := p.threadId.getD ""
    conversationId := p.conversationId.getD ""
    attachments := p.attachments.getD ""
    emailType := "inbound" }

/-- The record the ingestEmail handler passes to storeEmailMemoryInD1: the
handler itself applies the or-empty defaults to senderName, subject and
attachments and passes threadId and conversationId through unchanged. -/
def inputOfIngest (p : IngestEmailParams) (userId : String) : EmailMemoryInput :=
  { userId := userId
    senderEmail := p.senderEmail
    senderName := p.senderName.getD ""
    subject := p.subject.getD ""
    body := p.body
    attachments := p.attachments.getD ""
    dateSent := p.dateSent
    threadId := p.threadId
    conversationId := p.conversationId
    relatedEmailIds := none }

/-- The ingestEmail tool handler: store the vector first, then the D1 row;
any thrown error is reported back as a failure message. The d1Fault flag
injects an external failure of the INSERT after the vector write. -/
def ingestEmailTool (embed : String → List ℚ) (p : IngestEmailParams)
    (userId memoryId : String) (d1Fault : Bool)
    (idx : List VecEntry) (rows : List EmailMemoryRow) :
    Except String String × List VecEntry × List EmailMemoryRow :=
  match storeEmailMemory embed (metadataOfIngest p) userId memoryId idx with
  | Except.error e =>
      (Except.error ("Failed to ingest email: " ++ memErrMessage e), idx, rows)
  | Except.ok idx' =>
      if d1Fault then
        (Except.error ("Failed to ingest email: " ++ memErrMessage MemErr.storageFailure),
         idx', rows)
      else
        match storeEmailMemoryInD1 (inputOfIngest p userId) memoryId rows with
        | Except.error e =>
            (Except.error ("Failed to ingest email: " ++ memErrMessage e), idx', rows)
        | Except.ok rows' => (Except.ok memoryId, idx', rows')

/-- Fetch one row back from D1 by id and owner; the row is unique by primary
key, so the ORDER BY of the surrounding SELECT is irrelevant to the result. -/
def d1FetchById (memoryId userId : String) (rows : List EmailMemoryRow) :
    Option EmailMemoryRow :=
  (rows.filter (fun r => r.userId == userId)).find? (fun r => r.id == memoryId)

/-- Modelled from the spec: the date predicate as the search claim words it,
inclusive containment of the sent timestamp in the start-to-end range; used
only to compare against the behaviour of the source filter. -/
def specDateContained (parse : String → Option ℚ) (dr : String × String)
    (dateSent : String) : Prop :=
  ∃ x lo hi, parse dateSent = some x ∧ parse dr.1 = some lo ∧
    parse dr.2 = some hi ∧ lo ≤ x ∧ x ≤ hi

/-- A constant well-dimensioned embedding provider for concrete instances. -/
def cEmbed : String → List ℚ := fun _ => List.replicate 768 0

/-- A stored entry under another owners namespace, used to exhibit the
unscoped metadata lookup of the vector update. -/
def sampleEntryAlice : VecEntry :=
  { id := "m1",
    values := [],
    ns := "alice",
    metadata := { content := "old", senderEmail := "a@x", senderName := "",
                  subject := "SECRET", dateSent := "2024", threadId := "",
                  conversationId := "", attachments := "", emailType := "standard",
                  embeddingModel := "gemini-text-embedding-004",
                  embeddingDimensions := "768" } }

/-- A sample relationship row for concrete instances. -/
def sampleRel : EmailRelationshipRow :=
  { id := "r1", email_id := "m1", related_email_id := "m2",
    relationship_type := "ref" }

/-- A sample relational row for concrete instances. -/
def sampleRow : EmailMemoryRow :=
  { id := "m1", userId := "u", senderEmail := "a@x", senderName := "",
    subject := "", body := "b", attachments := "", dateSent := "d",
    threadId := none, conversationId := none, relatedEmailIds := none }

/-- A sample vector entry for concrete instances. -/
def sampleVecEntry : VecEntry :=
  { id := "m1", values := [], ns := "u", metadata := emptyVecMetadata }

/-- A concrete date parse oracle recognising two calendar days. -/
def sampleParse : String → Option ℚ := fun s =>
  if s = "2024-01-01" then some 1
  else if s = "2024-12-31" then some 365
  else none

/-- A stored metadata payload whose sent timestamp is empty. -/
def sampleMetaNoDate : VecMetadata :=
  { emptyVecMetadata with content := "c", senderEmail := "a@x" }

section Helpers

/-- Finding by id after an upsert of an entry with that id yields that entry. -/
theorem vecGetById_vecUpsert (e : VecEntry) (idx : List VecEntry) :
    vecGetById e.id (vecUpsert e idx) = some e := by
  unfold vecUpsert
  by_cases h : idx.any (fun x => x.id == e.id)
  · rw [if_pos h]
    induction idx with
    | nil => simp at h
    | cons x xs ih =>
      by_cases hx : x.id == e.id
      · simp [vecGetById, List.find?, hx]
      · simp only [List.any_cons, Bool.or_eq_true] at h
        have hxs : xs.any (fun x => x.id == e.id) = true := by
          cases h with
          | inl h0 => exact absurd h0 hx
          | inr h0 => exact h0
        have := ih hxs
        simpa [vecGetById, List.find?, hx] using this
  · rw [if_neg h]
    induction idx with
    | nil => simp [vecGetById]
    | cons x xs ih =>
      simp only [List.any_cons, Bool.or_eq_true, not_or] at h
      have hx : (x.id == e.id) = false := by
        cases hxx : x.id == e.id
        · rfl
        · exact absurd hxx h.1
      have := ih (by simpa using h.2)
      simpa [vecGetById, List.find?, hx] using this

/-- Every pair kept by the SET-clause builder has a key other than id and
userId. -/
theorem mem_buildSetPairs {updates : UpdateEntries} {kv : String × String}
    (h : kv ∈ buildSetPairs updates) : kv.1 ≠ "id" ∧ kv.1 ≠ "userId" := by
  unfold buildSetPairs at h
  rw [List.mem_filterMap] at h
  obtain ⟨a, _, ha⟩ := h
  by_cases hc : a.1 ≠ "id" ∧ a.1 ≠ "userId"
  · rw [if_pos hc] at ha
    cases hv : a.2 with
    | none =>
      rw [hv] at ha
      exact absurd ha (by simp)
    | some v =>
      rw [hv] at ha
      have hkv : (a.1, v) = kv := by simpa using ha
      cases hkv
      exact hc
  · rw [if_neg hc] at ha
    simp at ha

set_option maxHeartbeats 1000000 in
/-- One SET assignment whose key does not resolve, case-insensitively, to
the id or the userId column keeps those two columns. -/
theorem applyColumn_keeps_keys (r : EmailMemoryRow) (kv : String × String)
    (h1 : lowerAscii kv.1 ≠ "id") (h2 : lowerAscii kv.1 ≠ "userid") :
    (applyColumn r kv).id = r.id ∧ (applyColumn r kv).userId = r.userId := by
  unfold applyColumn
  rw [if_neg h1, if_neg h2]
  refine ⟨?_, ?_⟩ <;> (repeat' split) <;> rfl

/-- A fold of SET assignments whose keys resolve to neither the id nor the
userId column keeps those two columns. -/
theorem foldl_applyColumn_keeps_keys (pairs : List (String × String))
    (h : ∀ kv ∈ pairs, lowerAscii kv.1 ≠ "id" ∧ lowerAscii kv.1 ≠ "userid")
    (r : EmailMemoryRow) :
    (pairs.foldl applyColumn r).id = r.id ∧
    (pairs.foldl applyColumn r).userId = r.userId := by
  induction pairs generalizing r with
  | nil => exact ⟨rfl, rfl⟩
  | cons kv rest ih =>
    have hk := h kv (List.mem_cons_self kv rest)
    have hstep := applyColumn_keeps_keys r kv hk.1 hk.2
    have hrest := ih (fun a ha => h a (List.mem_cons_of_mem kv ha)) (applyColumn r kv)
    exact ⟨hrest.1.trans hstep.1, hrest.2.trans hstep.2⟩

/-- Every pair kept by the SET-clause builder takes its key from some entry
of the updates object. -/
theorem mem_buildSetPairs_key {updates : UpdateEntries} {kv : String × String}
    (h : kv ∈ buildSetPairs updates) : ∃ a ∈ updates, a.1 = kv.1 := by
  unfold buildSetPairs at h
  rw [List.mem_filterMap] at h
  obtain ⟨a, ha, hma⟩ := h
  by_cases hc : a.1 ≠ "id" ∧ a.1 ≠ "userId"
  · rw [if_pos hc] at hma
    cases hv : a.2 with
    | none =>
      rw [hv] at hma
      exact absurd hma (by simp)
    | some v =>
      rw [hv] at hma
      have hkv : (a.1, v) = kv := by simpa using hma
      exact ⟨a, ha, by rw [← hkv]⟩
  · rw [if_neg hc] at hma
    simp at hma

/-- None of the nine updatable column names resolves, case-insensitively,
to the id or the userId column. -/
theorem emailColumns_lower_safe :
    ∀ c ∈ emailColumns, lowerAscii c ≠ "id" ∧ lowerAscii c ≠ "userid" := by decide

/-- The constant provider always returns a well-dimensioned vector. -/
theorem cEmbed_length (s : String) :
    (cEmbed s).length = EXPECTED_GEMINI_DIMENSIONS :=
  List.length_replicate 768 0

/-- A find over an appended list skips a prefix on which the predicate is
false everywhere. -/
theorem find?_append_right {α : Type} {p : α → Bool} {l1 l2 : List α}
    (h : ∀ a ∈ l1, p a = false) : (l1 ++ l2).find? p = l2.find? p := by
  induction l1 with
  | nil => rfl
  | cons x xs ih =>
    have hx := h x (List.mem_cons_self x xs)
    simp only [List.cons_append, List.find?, hx]
    exact ih (fun a ha => h a (List.mem_cons_of_mem x ha))

end Helpers

/-- C10 counterexample: a key that is a case-variant of userId passes the
case-sensitive exclusion check (it differs from both the literal id and the
literal userId), yet the generated SET assignment resolves
case-insensitively to the userId column and overwrites the row owner, so an
update can change a row owner. -/
theorem updateInD1_owner_overwrite_counterexample :
    (∀ kv ∈ buildSetPairs [("USERID", some "evil")], kv.1 ≠ "id" ∧ kv.1 ≠ "userId") ∧
    ((updateEmailMemoryInD1 "m1" "u" [("USERID", some "evil")] [sampleRow]).2.map
        (fun r => r.userId)) = ["evil"] ∧
    sampleRow.userId = "u" ∧ ("evil" : String) ≠ "u" := by
  exact ⟨by decide, rfl, rfl, by decide⟩

/-- C10 (amended): entries of the updates object whose key is exactly id or
userId, or whose value is undefined, are excluded from the generated SET
clause, and for updates whose keys are exact column names of the table the
id and userId columns of every stored row are unchanged; the exclusion
check is case-sensitive while SQL resolves column names case-insensitively,
so the guarantee does not extend to case-variant keys such as USERID. -/
theorem updateInD1_preserves_identity_and_owner (memoryId userId : String)
    (updates : UpdateEntries) (rows : List EmailMemoryRow)
    (hkeys : ∀ kv ∈ updates, kv.1 ∈ ("id" :: "userId" :: emailColumns)) :
    (∀ kv ∈ buildSetPairs updates, kv.1 ≠ "id" ∧ kv.1 ≠ "userId") ∧
    ((updateEmailMemoryInD1 memoryId userId updates rows).2.map
        (fun r => (r.id, r.userId)) = rows.map (fun r => (r.id, r.userId))) := by
  have hsafe : ∀ kv ∈ buildSetPairs updates,
      lowerAscii kv.1 ≠ "id" ∧ lowerAscii kv.1 ≠ "userid" := by
    intro kv hkv
    have hne := mem_buildSetPairs hkv
    obtain ⟨a, ha, hae⟩ := mem_buildSetPairs_key hkv
    have hmem := hkeys a ha
    rw [hae] at hmem
    simp only [List.mem_cons] at hmem
    rcases hmem with h | h | h
    · exact absurd h hne.1
    · exact absurd h hne.2
    · exact emailColumns_lower_safe kv.1 h
  refine ⟨fun kv hkv => mem_buildSetPairs hkv, ?_⟩
  simp only [updateEmailMemoryInD1]
  by_cases hp : (buildSetPairs updates).isEmpty = true
  · simp [hp]
  · simp only [hp, if_false, Bool.false_eq_true]
    rw [apply_ite Prod.snd, ite_self, List.map_map]
    refine List.map_congr_left ?_
    intro r _
    by_cases hc : (r.id == memoryId && r.userId == userId) = true
    · have hkeep := foldl_applyColumn_keeps_keys (buildSetPairs updates) hsafe r
      simp [Function.comp, hc, hkeep.1, hkeep.2]
    · simp [Function.comp, hc]

/-- Witness for the amended C10 at a concrete update. -/
theorem updateInD1_preserves_identity_and_owner_witness :
    (∀ kv ∈ buildSetPairs [("subject", some "s")], kv.1 ≠ "id" ∧ kv.1 ≠ "userId") ∧
    ((updateEmailMemoryInD1 "m" "u" [("subject", some "s")]
        [{ id := "m", userId := "u", senderEmail := "a@x", senderName := ""
           subject := "old", body := "b", attachments := "", dateSent := "d"
           threadId := none, conversationId := none, relatedEmailIds := none }]).2.map
        (fun r => (r.id, r.userId))
      = [{ id := "m", userId := "u", senderEmail := "a@x", senderName := ""
           subject := "old", body := "b", attachments := "", dateSent := "d"
           threadId := none, conversationId := none,
           relatedEmailIds := none : EmailMemoryRow }].map (fun r => (r.id, r.userId))) :=
  updateInD1_preserves_identity_and_owner "m" "u" [("subject", some "s")] _ (by decide)

/-- C1: updating a non-existent id and owner with a non-empty set of
updatable fields fails with the not-found error and leaves no trace: the
relational store is returned unchanged and the route answers 404 before
the vector update is ever attempted, so the vector index is unchanged too. -/
theorem update_nonexistent_notfound (embed : String → List ℚ)
    (emailId userId : String) (body : UpdateEntries)
    (rows : List EmailMemoryRow) (idx : List VecEntry)
    (hkeys : ∀ kv ∈ body, kv.1 ∈ ("id" :: "userId" :: emailColumns))
    (hne : buildSetPairs body ≠ [])
    (hrow : ∀ r ∈ rows, ¬(r.id = emailId ∧ r.userId = userId)) :
    updateEmailMemoryInD1 emailId userId body rows
      = (Except.error (MemErr.notFound emailId), rows) ∧
    updateEmailRoute embed emailId userId body rows idx
      = ({ success := false, status := 404 }, rows, idx) := by
  have hf : ∀ r ∈ rows, (r.id == emailId && r.userId == userId) = false := by
    intro r hr
    cases h1 : r.id == emailId
    · rfl
    · cases h2 : r.userId == userId
      · simp
      · exact absurd ⟨by simpa using h1, by simpa using h2⟩ (hrow r hr)
  have hchanges : rows.filter (fun r => r.id == emailId && r.userId == userId) = [] := by
    rw [List.filter_eq_nil_iff]
    intro a ha
    simp [hf a ha]
  have hpe : (buildSetPairs body).isEmpty = false := by
    cases hh : buildSetPairs body
    · exact absurd hh hne
    · rfl
  have hd1 : updateEmailMemoryInD1 emailId userId body rows
      = (Except.error (MemErr.notFound emailId), rows) := by
    simp only [updateEmailMemoryInD1, hpe, Bool.false_eq_true, if_false,
      hchanges, List.length_nil, if_pos]
    have hpt : ∀ r ∈ rows, (if r.id == emailId && r.userId == userId
        then (buildSetPairs body).foldl applyColumn r else r) = id r := by
      intro r hr
      rw [hf r hr]
      rfl
    rw [List.map_congr_left hpt, List.map_id]
  refine ⟨hd1, ?_⟩
  simp [updateEmailRoute, hd1]

/-- Witness for C1 at a concrete input. -/
theorem update_nonexistent_notfound_witness :
    updateEmailMemoryInD1 "m" "u" [("subject", some "x")] []
      = (Except.error (MemErr.notFound "m"), []) ∧
    updateEmailRoute cEmbed "m" "u" [("subject", some "x")] [] []
      = ({ success := false, status := 404 }, [], []) :=
  update_nonexistent_notfound cEmbed "m" "u" [("subject", some "x")] [] []
    (by decide) (by decide) (by simp)

/-- C9: findSimilar fails with the not-found error when no vector entry
with the given id exists; otherwise it queries the index for topK plus one
neighbours and the returned list never contains the item itself and has
length at most topK. -/
theorem findSimilar_spec (queryIndex : List ℚ → String → Nat → List VecMatch)
    (emailId userId : String) (topK : Nat) (idx : List VecEntry) :
    (vecGetById emailId idx = none →
      findSimilarEmails queryIndex emailId userId topK idx
        = Except.error (MemErr.notFound emailId)) ∧
    (∀ entry, vecGetById emailId idx = some entry →
      ∃ l, findSimilarEmails queryIndex emailId userId topK idx = Except.ok l ∧
        l = ((queryIndex entry.values userId (topK + 1)).filter
              (fun m => m.id != emailId)).take topK ∧
        (∀ m ∈ l, m.id ≠ emailId) ∧ l.length ≤ topK) := by
  constructor
  · intro h
    simp [findSimilarEmails, h]
  · intro entry h
    have heta : (fun (m : VecMatch) =>
        ({ id := m.id, score := m.score, metadata := m.metadata } : VecMatch)) = id :=
      funext (fun m => rfl)
    refine ⟨((queryIndex entry.values userId (topK + 1)).filter
        (fun m => m.id != emailId)).take topK, ?_, rfl, ?_, ?_⟩
    · simp [findSimilarEmails, h, heta]
    · intro m hm
      have hmf := List.of_mem_filter (List.mem_of_mem_take hm)
      simpa using hmf
    · rw [List.length_take]
      exact min_le_left _ _

/-- Witness for C9 at concrete inputs covering both branches. -/
theorem findSimilar_spec_witness :
    findSimilarEmails (fun _ _ _ => []) "e1" "u" 1 []
      = Except.error (MemErr.notFound "e1") ∧
    (∃ l, findSimilarEmails
        (fun _ _ _ => [⟨"e1", 1, emptyVecMetadata⟩, ⟨"x", 1, emptyVecMetadata⟩])
        "e1" "u" 1 [⟨"e1", [], "u", emptyVecMetadata⟩] = Except.ok l ∧
      l = (([⟨"e1", 1, emptyVecMetadata⟩,
             (⟨"x", 1, emptyVecMetadata⟩ : VecMatch)].filter
              (fun m => m.id != "e1")).take 1) ∧
      (∀ m ∈ l, m.id ≠ "e1") ∧ l.length ≤ 1) :=
  ⟨(findSimilar_spec (fun _ _ _ => []) "e1" "u" 1 []).1 rfl,
   (findSimilar_spec
      (fun _ _ _ => [⟨"e1", 1, emptyVecMetadata⟩, ⟨"x", 1, emptyVecMetadata⟩])
      "e1" "u" 1 [⟨"e1", [], "u", emptyVecMetadata⟩]).2
      ⟨"e1", [], "u", emptyVecMetadata⟩ rfl⟩

/-- C3: in ingest the vector upsert happens before the relational insert;
when the relational write fails after a successful vector upsert, the
failure is reported to the caller and the vector entry remains in the
index as an orphan. -/
theorem ingest_orphan_on_relational_failure (embed : String → List ℚ)
    (p : IngestEmailParams) (userId memoryId : String)
    (idx : List VecEntry) (rows : List EmailMemoryRow)
    (h : (embed (createEmailContent (metadataOfIngest p))).length
          = EXPECTED_GEMINI_DIMENSIONS) :
    ∃ msg idx',
      ingestEmailTool embed p userId memoryId true idx rows
        = (Except.error msg, idx', rows) ∧
      vecGetById memoryId idx' = some
        { id := memoryId
          values := embed (createEmailContent (metadataOfIngest p))
          ns := userId
          metadata := buildVecMetadata (metadataOfIngest p)
            (embed (createEmailContent (metadataOfIngest p))) } := by
  have hstore : storeEmailMemory embed (metadataOfIngest p) userId memoryId idx
      = Except.ok (vecUpsert
          { id := memoryId
            values := embed (createEmailContent (metadataOfIngest p))
            ns := userId
            metadata := buildVecMetadata (metadataOfIngest p)
              (embed (createEmailContent (metadataOfIngest p))) } idx) := by
    simp [storeEmailMemory, generateEmbeddings, validateEmbeddingDimensions, h]
  refine ⟨"Failed to ingest email: " ++ memErrMessage MemErr.storageFailure,
    vecUpsert
      { id := memoryId
        values := embed (createEmailContent (metadataOfIngest p))
        ns := userId
        metadata := buildVecMetadata (metadataOfIngest p)
          (embed (createEmailContent (metadataOfIngest p))) } idx, ?_, ?_⟩
  · simp [ingestEmailTool, hstore]
  · exact vecGetById_vecUpsert
      { id := memoryId
        values := embed (createEmailContent (metadataOfIngest p))
        ns := userId
        metadata := buildVecMetadata (metadataOfIngest p)
          (embed (createEmailContent (metadataOfIngest p))) } idx

/-- Witness for C3 at a concrete input. -/
theorem ingest_orphan_witness :
    ∃ msg idx',
      ingestEmailTool cEmbed
        { senderEmail := "a@x", body := "b", dateSent := "d" } "u" "m1" true [] []
        = (Except.error msg, idx', []) ∧
      vecGetById "m1" idx' = some
        { id := "m1"
          values := cEmbed (createEmailContent (metadataOfIngest
            { senderEmail := "a@x", body := "b", dateSent := "d" }))
          ns := "u"
          metadata := buildVecMetadata (metadataOfIngest
              { senderEmail := "a@x", body := "b", dateSent := "d" })
            (cEmbed (createEmailContent (metadataOfIngest
              { senderEmail := "a@x", body := "b", dateSent := "d" }))) } :=
  ingest_orphan_on_relational_failure cEmbed
    { senderEmail := "a@x", body := "b", dateSent := "d" } "u" "m1" [] []
    (cEmbed_length _)

/-- C8: a provider vector of the wrong length makes ingest and search fail
with the dimension-mismatch error carrying both the expected and the
observed dimension, named in its message, and the rejection happens before
any write: both stores are returned unchanged. -/
theorem wrong_dimension_rejected (embed : String → List ℚ)
    (p : IngestEmailParams) (userId memoryId : String) (d1Fault : Bool)
    (idx : List VecEntry) (rows : List EmailMemoryRow)
    (queryIndex : List ℚ → String → Nat → List VecMatch)
    (parse : String → Option ℚ) (query userId2 : String)
    (filters : Option EmailSearchFilters)
    (h1 : (embed (createEmailContent (metadataOfIngest p))).length
          ≠ EXPECTED_GEMINI_DIMENSIONS)
    (h2 : (embed query).length ≠ EXPECTED_GEMINI_DIMENSIONS) :
    storeEmailMemory embed (metadataOfIngest p) userId memoryId idx
      = Except.error (MemErr.dimensionMismatch EXPECTED_GEMINI_DIMENSIONS
          (embed (createEmailContent (metadataOfIngest p))).length) ∧
    ingestEmailTool embed p userId memoryId d1Fault idx rows
      = (Except.error ("Failed to ingest email: " ++ memErrMessage
          (MemErr.dimensionMismatch EXPECTED_GEMINI_DIMENSIONS
            (embed (createEmailContent (metadataOfIngest p))).length)), idx, rows) ∧
    searchEmailMemories embed queryIndex parse query userId2 filters
      = Except.error (MemErr.dimensionMismatch EXPECTED_GEMINI_DIMENSIONS
          (embed query).length) ∧
    (∀ observed : Nat,
      memErrMessage (MemErr.dimensionMismatch EXPECTED_GEMINI_DIMENSIONS observed)
        = "Embedding dimension mismatch: expected "
          ++ toString EXPECTED_GEMINI_DIMENSIONS ++ ", got " ++ toString observed
          ++ ". This usually indicates a Vectorize index configuration issue.") := by
  have hs : storeEmailMemory embed (metadataOfIngest p) userId memoryId idx
      = Except.error (MemErr.dimensionMismatch EXPECTED_GEMINI_DIMENSIONS
          (embed (createEmailContent (metadataOfIngest p))).length) := by
    simp [storeEmailMemory, generateEmbeddings, validateEmbeddingDimensions, h1]
  refine ⟨hs, ?_, ?_, fun observed => rfl⟩
  · simp [ingestEmailTool, hs]
  · simp [searchEmailMemories, generateEmbeddings, validateEmbeddingDimensions, h2]

/-- Witness for C8 with a provider returning an empty vector. -/
theorem wrong_dimension_rejected_witness :
    storeEmailMemory (fun _ => []) (metadataOfIngest
        { senderEmail := "a@x", body := "b", dateSent := "d" }) "u" "m1" []
      = Except.error (MemErr.dimensionMismatch EXPECTED_GEMINI_DIMENSIONS
          ((fun (_ : String) => ([] : List ℚ)) (createEmailContent (metadataOfIngest
            { senderEmail := "a@x", body := "b", dateSent := "d" }))).length) ∧
    ingestEmailTool (fun _ => [])
        { senderEmail := "a@x", body := "b", dateSent := "d" } "u" "m1" false [] []
      = (Except.error ("Failed to ingest email: " ++ memErrMessage
          (MemErr.dimensionMismatch EXPECTED_GEMINI_DIMENSIONS
            ((fun (_ : String) => ([] : List ℚ)) (createEmailContent (metadataOfIngest
              { senderEmail := "a@x", body := "b", dateSent := "d" }))).length)), [], []) ∧
    searchEmailMemories (fun _ => []) (fun _ _ _ => []) (fun _ => none) "q" "u" none
      = Except.error (MemErr.dimensionMismatch EXPECTED_GEMINI_DIMENSIONS
          ((fun (_ : String) => ([] : List ℚ)) "q").length) ∧
    (∀ observed : Nat,
      memErrMessage (MemErr.dimensionMismatch EXPECTED_GEMINI_DIMENSIONS observed)
        = "Embedding dimension mismatch: expected "
          ++ toString EXPECTED_GEMINI_DIMENSIONS ++ ", got " ++ toString observed
          ++ ". This usually indicates a Vectorize index configuration issue.") :=
  wrong_dimension_rejected (fun _ => [])
    { senderEmail := "a@x", body := "b", dateSent := "d" } "u" "m1" false [] []
    (fun _ _ _ => []) (fun _ => none) "q" "u" none (by decide) (by decide)

/-- C6: createEmailContent is a deterministic function of exactly the six
field values it reads (in particular thread and conversation identifiers
never influence the output), it is total so absent optional fields cannot
make it throw, and when the subject or the attachments field is empty the
corresponding labelled fragment is not among the produced parts; when the
sender display name is empty the From fragment carries the sender address. -/
theorem createEmailContent_spec (m mm : EmailMetadata) :
    (m.content = mm.content → m.senderEmail = mm.senderEmail →
     m.senderName = mm.senderName → m.subject = mm.subject →
     m.dateSent = mm.dateSent → m.attachments = mm.attachments →
     createEmailContent m = createEmailContent mm) ∧
    (m.subject = "" → ∀ part ∈ (emailContentParts m).filter (fun p => p != ""),
      part = m.content ∨
      part = "From: " ++ (if m.senderName != "" then m.senderName else m.senderEmail) ∨
      part = "Sender: " ++ m.senderEmail ∨
      part = "Date: " ++ m.dateSent ∨
      part = "Attachments: " ++ m.attachments) ∧
    (m.attachments = "" → ∀ part ∈ (emailContentParts m).filter (fun p => p != ""),
      part = m.content ∨
      part = "Subject: " ++ m.subject ∨
      part = "From: " ++ (if m.senderName != "" then m.senderName else m.senderEmail) ∨
      part = "Sender: " ++ m.senderEmail ∨
      part = "Date: " ++ m.dateSent) ∧
    (m.senderName = "" → "From: " ++ m.senderEmail ∈ emailContentParts m) := by
  refine ⟨?_, ?_, ?_, ?_⟩
  · intro h1 h2 h3 h4 h5 h6
    unfold createEmailContent emailContentParts
    rw [h1, h2, h3, h4, h5, h6]
  · intro hs part hp
    rw [List.mem_filter] at hp
    have hmem := hp.1
    simp only [emailContentParts, hs, List.mem_cons, List.not_mem_nil, or_false] at hmem
    rcases hmem with h | h | h | h | h | h
    · exact Or.inl h
    · rw [if_neg (by simp)] at h
      exact absurd h (by simpa using hp.2)
    · exact Or.inr (Or.inl h)
    · exact Or.inr (Or.inr (Or.inl h))
    · exact Or.inr (Or.inr (Or.inr (Or.inl h)))
    · by_cases ha : m.attachments != ""
      · rw [if_pos ha] at h
        exact Or.inr (Or.inr (Or.inr (Or.inr h)))
      · rw [if_neg ha] at h
        exact absurd h (by simpa using hp.2)
  · intro ha part hp
    rw [List.mem_filter] at hp
    have hmem := hp.1
    simp only [emailContentParts, ha, List.mem_cons, List.not_mem_nil, or_false] at hmem
    rcases hmem with h | h | h | h | h | h
    · exact Or.inl h
    · by_cases hs : m.subject != ""
      · rw [if_pos hs] at h
        exact Or.inr (Or.inl h)
      · rw [if_neg hs] at h
        exact absurd h (by simpa using hp.2)
    · exact Or.inr (Or.inr (Or.inl h))
    · exact Or.inr (Or.inr (Or.inr (Or.inl h)))
    · exact Or.inr (Or.inr (Or.inr (Or.inr h)))
    · rw [if_neg (by simp)] at h
      exact absurd h (by simpa using hp.2)
  · intro hn
    unfold emailContentParts
    rw [hn]
    simp

/-- Witness for C6 at a concrete metadata value. -/
theorem createEmailContent_spec_witness :
    createEmailContent
        { content := "b", senderEmail := "a@x", dateSent := "d", threadId := "t1" }
      = createEmailContent
        { content := "b", senderEmail := "a@x", dateSent := "d", threadId := "t2" } ∧
    (∀ part ∈ (emailContentParts
        { content := "b", senderEmail := "a@x", dateSent := "d",
          threadId := "t1" }).filter (fun p => p != ""),
      part = "b" ∨
      part = "From: " ++ "a@x" ∨
      part = "Sender: " ++ "a@x" ∨
      part = "Date: " ++ "d" ∨
      part = "Attachments: " ++ "") ∧
    ("From: " ++ "a@x" ∈ emailContentParts
        { content := "b", senderEmail := "a@x", dateSent := "d", threadId := "t1" }) := by
  have h := createEmailContent_spec
    { content := "b", senderEmail := "a@x", dateSent := "d", threadId := "t1" }
    { content := "b", senderEmail := "a@x", dateSent := "d", threadId := "t2" }
  refine ⟨h.1 rfl rfl rfl rfl rfl rfl, ?_, h.2.2.2 rfl⟩
  intro part hp
  have := h.2.1 rfl part hp
  simpa using this

set_option maxRecDepth 20000 in
/-- C2 counterexample: the metadata lookup of the vector update is not
scoped to the owner namespace — updating id m1 on behalf of owner bob picks
up the metadata of the entry stored under namespace alice, while the
spec-worded scoped variant treats it as empty; and when the existing
metadata is empty, an unsupplied emailType is not retained as empty but
rewritten to standard. -/
theorem updateVector_scoped_counterexample :
    (updateEmailMemoryVector cEmbed "m1" { content := some "hello" } "bob"
        [sampleEntryAlice]).map
        (fun i => (vecGetById "m1" i).map (fun e => e.metadata.subject))
      = Except.ok (some "SECRET") ∧
    (updateEmailMemoryVectorScoped cEmbed "m1" { content := some "hello" } "bob"
        [sampleEntryAlice]).map
        (fun i => (vecGetById "m1" i).map (fun e => e.metadata.subject))
      = Except.ok (some "") ∧
    ("SECRET" : String) ≠ "" ∧
    (updateEmailMemoryVector cEmbed "zz"
        { content := some "x", senderEmail := some "s", dateSent := some "d" }
        "u" []).map
        (fun i => (vecGetById "zz" i).map (fun e => e.metadata.emailType))
      = Except.ok (some "standard") ∧
    (vecExistingMetadata "zz" []).emailType = "" := by
  exact ⟨rfl, rfl, by decide, rfl, rfl⟩

/-- C2 (amended): the existing metadata is fetched by id without namespace
scoping and treated as empty when absent; the upserted entry carries the
callers namespace, and its metadata assigns every supplied field its
supplied value and retains the existing value of every unsupplied
structured field, with emailType defaulted to standard when the merged
value is empty and the embedding bookkeeping fields rewritten. -/
theorem updateVector_merge (embed : String → List ℚ) (memoryId userId : String)
    (p : PartialEmailMetadata) (idx : List VecEntry)
    (h : (embed (createEmailContent
        (mergeMetadata (vecExistingMetadata memoryId idx) p))).length
      = EXPECTED_GEMINI_DIMENSIONS) :
    ∃ idx', updateEmailMemoryVector embed memoryId p userId idx = Except.ok idx' ∧
      ∃ e, vecGetById memoryId idx' = some e ∧ e.ns = userId ∧
        e.metadata.content = p.content.getD (vecExistingMetadata memoryId idx).content ∧
        e.metadata.senderEmail
          = p.senderEmail.getD (vecExistingMetadata memoryId idx).senderEmail ∧
        e.metadata.senderName
          = p.senderName.getD (vecExistingMetadata memoryId idx).senderName ∧
        e.metadata.subject = p.subject.getD (vecExistingMetadata memoryId idx).subject ∧
        e.metadata.dateSent = p.dateSent.getD (vecExistingMetadata memoryId idx).dateSent ∧
        e.metadata.threadId = p.threadId.getD (vecExistingMetadata memoryId idx).threadId ∧
        e.metadata.conversationId
          = p.conversationId.getD (vecExistingMetadata memoryId idx).conversationId ∧
        e.metadata.attachments
          = p.attachments.getD (vecExistingMetadata memoryId idx).attachments ∧
        e.metadata.emailType
          = (if p.emailType.getD (vecExistingMetadata memoryId idx).emailType = ""
             then "standard"
             else p.emailType.getD (vecExistingMetadata memoryId idx).emailType) := by
  refine ⟨vecUpsert
      { id := memoryId
        values := embed (createEmailContent
          (mergeMetadata (vecExistingMetadata memoryId idx) p))
        ns := userId
        metadata := buildVecMetadata
          (mergeMetadata (vecExistingMetadata memoryId idx) p)
          (embed (createEmailContent
            (mergeMetadata (vecExistingMetadata memoryId idx) p))) } idx, ?_, ?_⟩
  · simp [updateEmailMemoryVector, generateEmbeddings, validateEmbeddingDimensions, h]
  · exact ⟨{ id := memoryId
             values := embed (createEmailContent
               (mergeMetadata (vecExistingMetadata memoryId idx) p))
             ns := userId
             metadata := buildVecMetadata
               (mergeMetadata (vecExistingMetadata memoryId idx) p)
               (embed (createEmailContent
                 (mergeMetadata (vecExistingMetadata memoryId idx) p))) },
           vecGetById_vecUpsert
             { id := memoryId
               values := embed (createEmailContent
                 (mergeMetadata (vecExistingMetadata memoryId idx) p))
               ns := userId
               metadata := buildVecMetadata
                 (mergeMetadata (vecExistingMetadata memoryId idx) p)
                 (embed (createEmailContent
                   (mergeMetadata (vecExistingMetadata memoryId idx) p))) } idx,
           rfl, rfl, rfl, rfl, rfl, rfl, rfl, rfl, rfl, rfl⟩

/-- Witness for the amended C2 at a concrete input. -/
theorem updateVector_merge_witness :
    ∃ idx', updateEmailMemoryVector cEmbed "m1"
        { content := some "c", senderEmail := some "s", dateSent := some "d" }
        "u" [] = Except.ok idx' ∧
      ∃ e, vecGetById "m1" idx' = some e ∧ e.ns = "u" ∧
        e.metadata.content
          = (some "c").getD (vecExistingMetadata "m1" ([] : List VecEntry)).content ∧
        e.metadata.senderEmail
          = (some "s").getD (vecExistingMetadata "m1" ([] : List VecEntry)).senderEmail ∧
        e.metadata.senderName
          = (none : Option String).getD (vecExistingMetadata "m1" ([] : List VecEntry)).senderName ∧
        e.metadata.subject
          = (none : Option String).getD (vecExistingMetadata "m1" ([] : List VecEntry)).subject ∧
        e.metadata.dateSent
          = (some "d").getD (vecExistingMetadata "m1" ([] : List VecEntry)).dateSent ∧
        e.metadata.threadId
          = (none : Option String).getD (vecExistingMetadata "m1" ([] : List VecEntry)).threadId ∧
        e.metadata.conversationId
          = (none : Option String).getD (vecExistingMetadata "m1" ([] : List VecEntry)).conversationId ∧
        e.metadata.attachments
          = (none : Option String).getD (vecExistingMetadata "m1" ([] : List VecEntry)).attachments ∧
        e.metadata.emailType
          = (if (none : Option String).getD (vecExistingMetadata "m1" ([] : List VecEntry)).emailType = ""
             then "standard"
             else (none : Option String).getD (vecExistingMetadata "m1" ([] : List VecEntry)).emailType) :=
  updateVector_merge cEmbed "m1" "u"
    { content := some "c", senderEmail := some "s", dateSent := some "d" }
    [] (cEmbed_length _)

/-- C4 counterexample: when the vector delete fails the route reports a
generic success (the failure is swallowed, not reported) while the vector
entry remains; and when the relational delete fails, the vector delete is
never attempted even though the vector store is healthy, so a relational
failure does prevent the other deletion. -/
theorem delete_route_counterexample :
    deleteEmailRoute "m1" "u" false true [sampleRel] [sampleRow] [sampleVecEntry]
      = ({ success := true, status := 200 }, [], [], [sampleVecEntry]) ∧
    deleteEmailRoute "m1" "u" true false [sampleRel] [sampleRow] [sampleVecEntry]
      = ({ success := false, status := 500 }, [sampleRel], [sampleRow], [sampleVecEntry]) :=
  ⟨rfl, rfl⟩

/-- C4 (amended): when the relational delete succeeds, every relationship
referencing the id in either direction and the relational row scoped to the
owner are removed and the route reports success; the vector entry is then
removed when the vector delete succeeds, while a vector-delete failure
leaves the vector entry in place and is swallowed into the same success
response; a relational-delete failure is reported as an error and prevents
the vector delete from being attempted, leaving every store unchanged. -/
theorem delete_best_effort (emailId userId : String) (b : Bool)
    (rels : List EmailRelationshipRow) (rows : List EmailMemoryRow)
    (idx : List VecEntry) :
    ((deleteEmailRoute emailId userId false b rels rows idx).1
       = { success := true, status := 200 } ∧
     (deleteEmailRoute emailId userId false b rels rows idx).2.1
       = rels.filter (fun r => !(r.email_id == emailId || r.related_email_id == emailId)) ∧
     (∀ r ∈ (deleteEmailRoute emailId userId false b rels rows idx).2.1,
        r.email_id ≠ emailId ∧ r.related_email_id ≠ emailId) ∧
     (deleteEmailRoute emailId userId false b rels rows idx).2.2.1
       = rows.filter (fun r => !(r.id == emailId && r.userId == userId)) ∧
     (∀ r ∈ (deleteEmailRoute emailId userId false b rels rows idx).2.2.1,
        ¬(r.id = emailId ∧ r.userId = userId)) ∧
     (b = false →
        (deleteEmailRoute emailId userId false b rels rows idx).2.2.2
          = idx.filter (fun e => e.id != emailId) ∧
        ∀ e ∈ (deleteEmailRoute emailId userId false b rels rows idx).2.2.2,
          e.id ≠ emailId) ∧
     (b = true →
        (deleteEmailRoute emailId userId false b rels rows idx).2.2.2 = idx)) ∧
    deleteEmailRoute emailId userId true b rels rows idx
      = ({ success := false, status := 500 }, rels, rows, idx) := by
  have hrels : ∀ r ∈ rels.filter
      (fun r => !(r.email_id == emailId || r.related_email_id == emailId)),
      r.email_id ≠ emailId ∧ r.related_email_id ≠ emailId := by
    intro r hr
    have hb := List.of_mem_filter hr
    simpa using hb
  have hrows : ∀ r ∈ rows.filter (fun r => !(r.id == emailId && r.userId == userId)),
      ¬(r.id = emailId ∧ r.userId = userId) := by
    intro r hr hand
    have hb := List.of_mem_filter hr
    rw [hand.1, hand.2] at hb
    simp at hb
  have hvec : ∀ e ∈ idx.filter (fun e => e.id != emailId), e.id ≠ emailId := by
    intro e he
    have hb := List.of_mem_filter he
    simpa using hb
  cases b with
  | false =>
      exact ⟨⟨rfl, rfl, hrels, rfl, hrows, fun _ => ⟨rfl, hvec⟩,
        fun h => Bool.noConfusion h⟩, rfl⟩
  | true =>
      exact ⟨⟨rfl, rfl, hrels, rfl, hrows, fun h => Bool.noConfusion h,
        fun _ => rfl⟩, rfl⟩

/-- Witness for the amended C4, covering both vector-delete outcomes. -/
theorem delete_best_effort_witness :
    ((deleteEmailRoute "m1" "u" false false [sampleRel] [sampleRow] [sampleVecEntry]).2.2.2
       = [sampleVecEntry].filter (fun e => e.id != "m1")) ∧
    ((deleteEmailRoute "m1" "u" false true [sampleRel] [sampleRow] [sampleVecEntry]).2.2.2
       = [sampleVecEntry]) ∧
    deleteEmailRoute "m1" "u" true false [sampleRel] [sampleRow] [sampleVecEntry]
      = ({ success := false, status := 500 }, [sampleRel], [sampleRow], [sampleVecEntry]) :=
  ⟨((delete_best_effort "m1" "u" false [sampleRel] [sampleRow]
      [sampleVecEntry]).1.2.2.2.2.2.1 rfl).1,
   (delete_best_effort "m1" "u" true [sampleRel] [sampleRow]
      [sampleVecEntry]).1.2.2.2.2.2.2 rfl,
   (delete_best_effort "m1" "u" false [sampleRel] [sampleRow] [sampleVecEntry]).2⟩

set_option maxRecDepth 20000 in
/-- C5 counterexample: with a date-range filter supplied, a fetched match
whose sent timestamp is empty is returned even though its timestamp is not
contained in the range, because the source applies the date predicate only
to matches with a truthy sent timestamp. -/
theorem search_dateSent_counterexample :
    searchEmailMemories cEmbed (fun _ _ _ => [⟨"m1", 1, sampleMetaNoDate⟩])
        sampleParse "q" "u"
        (some { dateRange := some ("2024-01-01", "2024-12-31") })
      = Except.ok [{ content := "c", score := 1, id := "m1",
                     metadata := sampleMetaNoDate }] ∧
    sampleMetaNoDate.dateSent = "" ∧
    ¬ specDateContained sampleParse ("2024-01-01", "2024-12-31")
        sampleMetaNoDate.dateSent := by
  refine ⟨rfl, rfl, ?_⟩
  intro hspec
  obtain ⟨x, lo, hi, hx, -, -, -, -⟩ := hspec
  have hnone : sampleParse sampleMetaNoDate.dateSent = none := rfl
  rw [hnone] at hx
  exact Option.noConfusion hx

/-- C5 (amended): with filters supplied, search returns exactly the fetched
top-20 matches at or above the minimum score that pass the conjunctive
filter predicate, sorted by descending score; the predicate requires exact
sender equality and exact thread equality when those filters are set, a
non-empty attachments field when the has-attachments filter is set to true,
and — only for matches with a non-empty sent timestamp — inclusive
containment in the supplied date range, where for valid parses
non-rejection is exactly inclusive containment; with no filters the
unfiltered score-sorted list is returned. -/
theorem search_filter_spec (embed : String → List ℚ)
    (queryIndex : List ℚ → String → Nat → List VecMatch)
    (parse : String → Option ℚ) (query userId : String) (f : EmailSearchFilters)
    (h : (embed query).length = EXPECTED_GEMINI_DIMENSIONS) :
    (searchEmailMemories embed queryIndex parse query userId (some f)
      = Except.ok (sortByScoreDesc
          ((((queryIndex (embed query) userId 20).filter
              (fun m => decide (MINIMUM_SIMILARITY_SCORE ≤ m.score))).map
              toEmailSearchResult).filter
              (fun mem => passesFilters parse f mem.metadata)))) ∧
    (∀ l : List EmailSearchResult, List.Sorted scoreGE (sortByScoreDesc l) ∧
      ∀ mem, mem ∈ sortByScoreDesc l ↔ mem ∈ l) ∧
    (searchEmailMemories embed queryIndex parse query userId none
      = Except.ok (sortByScoreDesc
          (((queryIndex (embed query) userId 20).filter
              (fun m => decide (MINIMUM_SIMILARITY_SCORE ≤ m.score))).map
              toEmailSearchResult))) ∧
    (∀ meta : VecMetadata, passesFilters parse f meta = true ↔
      ((f.senderEmail.getD "" ≠ "" → meta.senderEmail = f.senderEmail.getD "") ∧
       (f.threadId.getD "" ≠ "" → meta.threadId = f.threadId.getD "") ∧
       dateRangeRejects parse f.dateRange meta.dateSent = false ∧
       (f.hasAttachments.getD false = true → meta.attachments ≠ ""))) ∧
    (∀ (dr : String × String) (ds : String) (x lo hi : ℚ),
      parse ds = some x → parse dr.1 = some lo → parse dr.2 = some hi →
      (dateRangeRejects parse (some dr) ds = false ↔ (ds = "" ∨ (lo ≤ x ∧ x ≤ hi)))) := by
  have hok : generateEmbeddings embed query = Except.ok (embed query) := by
    simp [generateEmbeddings, validateEmbeddingDimensions, h]
  refine ⟨?_, ?_, ?_, ?_, ?_⟩
  · simp only [searchEmailMemories, hok]
    by_cases he : (queryIndex (embed query) userId 20).isEmpty = true
    · have he' : queryIndex (embed query) userId 20 = [] := List.isEmpty_iff.mp he
      rw [he']
      simp [sortByScoreDesc, List.insertionSort]
    · simp only [he, if_false, Bool.false_eq_true]
  · intro l
    refine ⟨List.sorted_insertionSort scoreGE l, fun mem => ?_⟩
    simp [sortByScoreDesc]
  · simp only [searchEmailMemories, hok]
    by_cases he : (queryIndex (embed query) userId 20).isEmpty = true
    · have he' : queryIndex (embed query) userId 20 = [] := List.isEmpty_iff.mp he
      rw [he']
      simp [sortByScoreDesc, List.insertionSort]
    · simp only [he, if_false, Bool.false_eq_true]
  · intro meta
    simp only [passesFilters]
    split_ifs with h1 h2 h3 h4
    · simp only [Bool.false_eq_true, false_iff]
      rw [Bool.and_eq_true, bne_iff_ne, bne_iff_ne] at h1
      rintro ⟨c1, -, -, -⟩
      exact h1.2 (c1 h1.1)
    · simp only [Bool.false_eq_true, false_iff]
      rw [Bool.and_eq_true, bne_iff_ne, bne_iff_ne] at h2
      rintro ⟨-, c2, -, -⟩
      exact h2.2 (c2 h2.1)
    · simp only [Bool.false_eq_true, false_iff]
      rintro ⟨-, -, c3, -⟩
      rw [c3] at h3
      exact Bool.noConfusion h3
    · simp only [Bool.false_eq_true, false_iff]
      rw [Bool.and_eq_true, beq_iff_eq] at h4
      rintro ⟨-, -, -, c4⟩
      exact (c4 h4.1) h4.2
    · simp only [true_iff]
      refine ⟨?_, ?_, ?_, ?_⟩
      · intro hne
        by_contra hme
        exact h1 (by rw [Bool.and_eq_true, bne_iff_ne, bne_iff_ne]; exact ⟨hne, hme⟩)
      · intro hne
        by_contra hme
        exact h2 (by rw [Bool.and_eq_true, bne_iff_ne, bne_iff_ne]; exact ⟨hne, hme⟩)
      · cases hdr : dateRangeRejects parse f.dateRange meta.dateSent
        · rfl
        · exact absurd hdr h3
      · intro hba heq
        exact h4 (by rw [Bool.and_eq_true, beq_iff_eq]; exact ⟨hba, heq⟩)
  · intro dr ds x lo hi hx hlo hhi
    have hred : dateRangeRejects parse (some dr) ds
        = (ds != "" && (jsDateLt parse ds dr.1 || jsDateLt parse dr.2 ds)) := rfl
    rw [hred]
    unfold jsDateLt
    rw [hx, hlo, hhi]
    by_cases hds : ds = ""
    · simp [hds]
    · simp [hds, not_lt]

/-- Witness for the amended C5 at a concrete input. -/
theorem search_filter_spec_witness :
    (searchEmailMemories cEmbed (fun _ _ _ => []) sampleParse "q" "u"
        (some { dateRange := some ("2024-01-01", "2024-12-31") })
      = Except.ok (sortByScoreDesc
          (((([] : List VecMatch).filter
              (fun m => decide (MINIMUM_SIMILARITY_SCORE ≤ m.score))).map
              toEmailSearchResult).filter
              (fun mem => passesFilters sampleParse
                { dateRange := some ("2024-01-01", "2024-12-31") }
                mem.metadata)))) ∧
    (searchEmailMemories cEmbed (fun _ _ _ => []) sampleParse "q" "u" none
      = Except.ok (sortByScoreDesc
          ((([] : List VecMatch).filter
              (fun m => decide (MINIMUM_SIMILARITY_SCORE ≤ m.score))).map
              toEmailSearchResult))) :=
  ⟨(search_filter_spec cEmbed (fun _ _ _ => []) sampleParse "q" "u"
      { dateRange := some ("2024-01-01", "2024-12-31") } (cEmbed_length _)).1,
   (search_filter_spec cEmbed (fun _ _ _ => []) sampleParse "q" "u"
      { dateRange := some ("2024-01-01", "2024-12-31") } (cEmbed_length _)).2.2.1⟩

set_option maxRecDepth 20000 in
/-- C7 counterexample: ingesting an email without a thread identifier
stores SQL NULL in the threadId column, not the empty string, so the
read-back row does not carry every absent optional normalized to the empty
string. -/
theorem ingest_null_optionals_counterexample :
    ((ingestEmailTool cEmbed { senderEmail := "a@x", body := "b", dateSent := "d" }
        "u" "m1" false [] []).2.2.map (fun r => r.threadId)) = [none] ∧
    (none : Option String) ≠ some "" := by
  exact ⟨rfl, by decide⟩

/-- C7 (amended): ingesting a fresh id succeeds, and fetching the row back
from the relational store yields field-for-field the supplied values, with
an absent sender name, subject or attachments normalized to the empty
string, while an absent or empty thread identifier and conversation
identifier are normalized to SQL NULL. -/
theorem ingest_roundtrip (embed : String → List ℚ) (p : IngestEmailParams)
    (userId memoryId : String) (idx : List VecEntry) (rows : List EmailMemoryRow)
    (h1 : (embed (createEmailContent (metadataOfIngest p))).length
          = EXPECTED_GEMINI_DIMENSIONS)
    (h2 : rows.all (fun r => r.id != memoryId) = true) :
    ∃ idx' rows',
      ingestEmailTool embed p userId memoryId false idx rows
        = (Except.ok memoryId, idx', rows') ∧
      d1FetchById memoryId userId rows' = some
        { id := memoryId
          userId := userId
          senderEmail := p.senderEmail
          senderName := p.senderName.getD ""
          subject := p.subject.getD ""
          body := p.body
          attachments := p.attachments.getD ""
          dateSent := p.dateSent
          threadId := strOrNull p.threadId
          conversationId := strOrNull p.conversationId
          relatedEmailIds := none } := by
  have hany : rows.any (fun r => r.id == memoryId) = false := by
    cases hA : rows.any (fun r => r.id == memoryId)
    · rfl
    · exfalso
      rw [List.any_eq_true] at hA
      obtain ⟨r, hr, hid⟩ := hA
      have hall := List.all_eq_true.mp h2 r hr
      rw [bne_iff_ne] at hall
      exact hall (by simpa using hid)
  have hstore : storeEmailMemory embed (metadataOfIngest p) userId memoryId idx
      = Except.ok (vecUpsert
          { id := memoryId
            values := embed (createEmailContent (metadataOfIngest p))
            ns := userId
            metadata := buildVecMetadata (metadataOfIngest p)
              (embed (createEmailContent (metadataOfIngest p))) } idx) := by
    simp [storeEmailMemory, generateEmbeddings, validateEmbeddingDimensions, h1]
  have hins : storeEmailMemoryInD1 (inputOfIngest p userId) memoryId rows
      = Except.ok (rows ++
          [{ id := memoryId
             userId := userId
             senderEmail := p.senderEmail
             senderName := p.senderName.getD ""
             subject := p.subject.getD ""
             body := p.body
             attachments := p.attachments.getD ""
             dateSent := p.dateSent
             threadId := strOrNull p.threadId
             conversationId := strOrNull p.conversationId
             relatedEmailIds := none }]) := by
    simp [storeEmailMemoryInD1, hany, inputOfIngest, strOrNull]
  refine ⟨vecUpsert
      { id := memoryId
        values := embed (createEmailContent (metadataOfIngest p))
        ns := userId
        metadata := buildVecMetadata (metadataOfIngest p)
          (embed (createEmailContent (metadataOfIngest p))) } idx,
    rows ++
      [{ id := memoryId
         userId := userId
         senderEmail := p.senderEmail
         senderName := p.senderName.getD ""
         subject := p.subject.getD ""
         body := p.body
         attachments := p.attachments.getD ""
         dateSent := p.dateSent
         threadId := strOrNull p.threadId
         conversationId := strOrNull p.conversationId
         relatedEmailIds := none }], ?_, ?_⟩
  · simp [ingestEmailTool, hstore, hins]
  · unfold d1FetchById
    rw [List.filter_append, find?_append_right]
    · simp
    · intro r hr
      have hmem := List.mem_of_mem_filter hr
      have hall := List.all_eq_true.mp h2 r hmem
      simpa using hall

/-- Witness for the amended C7 at a concrete input. -/
theorem ingest_roundtrip_witness :
    ∃ idx' rows',
      ingestEmailTool cEmbed
          { senderEmail := "a@x", body := "b", dateSent := "d",
            subject := some "S", threadId := some "" }
          "u" "m1" false [] []
        = (Except.ok "m1", idx', rows') ∧
      d1FetchById "m1" "u" rows' = some
        { id := "m1"
          userId := "u"
          senderEmail := "a@x"
          senderName := (none : Option String).getD ""
          subject := (some "S").getD ""
          body := "b"
          attachments := (none : Option String).getD ""
          dateSent := "d"
          threadId := strOrNull (some "")
          conversationId := strOrNull none
          relatedEmailIds := none } :=
  ingest_roundtrip cEmbed
    { senderEmail := "a@x", body := "b", dateSent := "d",
      subject := some "S", threadId := some "" }
    "u" "m1" [] [] (cEmbed_length _) rfl

end MemV2
